import Mathlib

/-!
Verification of the worker runtime of `src/syft/workers/base.py` against its
natural-language specification.  Each Python function relevant to the claims
is embedded as an executable Lean definition; stateful code is embedded by
explicit state passing.  Components of the repository that are not among the
sources (the object storage layer, the id provider and the response
registration helper) are modelled from the specification; each such
definition carries a doc comment saying so.
-/

namespace PySyftWorker

/-! ## Search and tagging (BaseWorker.search, lines 1066-1110)

An object of the store, as far as search is concerned, is its id together
with its set of tags.  Ids and tags live in one type `α` because a query
term is compared both against ids (`find_by_id`) and against tags
(`find_by_tag`). -/

structure SObj (α : Type) where
  oid : α
  tags : List α
deriving DecidableEq, Repr

/-- Modelled from the spec: `ObjectStore.find_by_id` returns the stored
object with the given id, if any (`object_storage.py` is not among the
sources). -/
def find_by_id {α : Type} [DecidableEq α] : List (SObj α) → α → Option (SObj α)
  | [], _ => none
  | o :: rest, q => if o.oid = q then some o else find_by_id rest q

/-- Modelled from the spec: `ObjectStore.find_by_tag` returns the stored
objects carrying the tag (exact tag membership). -/
def find_by_tag {α : Type} [DecidableEq α] : List (SObj α) → α → List (SObj α)
  | [], _ => []
  | o :: rest, t =>
      if t ∈ o.tags then o :: find_by_tag rest t else find_by_tag rest t

/-- Python set intersection `results.intersection(results_by_tag)`: the
elements of `rs` that also occur in `other`. -/
def setInter {α : Type} [DecidableEq α] (rs other : List (SObj α)) :
    List (SObj α) :=
  rs.filter (fun x => x ∈ other)

/-- Embeds the query loop of `BaseWorker.search` (lines 1089-1110).  The
accumulator starts as `none` (Python `results = None`).  A hit of
`find_by_id` sets the result to that single object and leaves the loop
(Python `break`).  Otherwise the tag matches are intersected with the
accumulator — but, exactly as in the Python `if results:` test, an empty
accumulated set is falsy and gets replaced rather than intersected. -/
def searchLoop {α : Type} [DecidableEq α] (st : List (SObj α)) :
    List α → Option (List (SObj α)) → Option (List (SObj α))
  | [], results => results
  | q :: qs, results =>
      match find_by_id st q with
      | some o => some [o]
      | none =>
          let byTag := find_by_tag st q
          match results with
          | some rs =>
              if rs.isEmpty then searchLoop st qs (some byTag)
              else searchLoop st qs (some (setInter rs byTag))
          | none => searchLoop st qs (some byTag)

/-- Embeds the empty-query branch of `BaseWorker.search` (lines 1083-1087):
the union over the tag index, i.e. every object carrying at least one tag,
each object once. -/
def allTagged {α : Type} [DecidableEq α] (st : List (SObj α)) : List (SObj α) :=
  st.filter (fun o => ¬ o.tags.isEmpty)

/-- Embeds `BaseWorker.search` (lines 1066-1110) for a query that is already
a list (the Python wrapper turns a single term into a one-element list).
`st` is the object store. -/
def search {α : Type} [DecidableEq α] (st : List (SObj α)) (query : List α) :
    List (SObj α) :=
  if query.isEmpty then allTagged st
  else
    match searchLoop st query none with
    | some rs => rs
    | none => []

/-! ### Helper lemmas about the search loop -/

theorem searchLoop_find_some {α : Type} [DecidableEq α]
    (st : List (SObj α)) (q : α) (qs : List α) (o : SObj α)
    (acc : Option (List (SObj α))) (h : find_by_id st q = some o) :
    searchLoop st (q :: qs) acc = some [o] := by
  simp [searchLoop, h]

theorem searchLoop_reaches {α : Type} [DecidableEq α]
    (st : List (SObj α)) (qs1 : List α) (q : α) (qs2 : List α) (o : SObj α)
    (h1 : ∀ x ∈ qs1, find_by_id st x = none)
    (h2 : find_by_id st q = some o) :
    ∀ acc, searchLoop st (qs1 ++ q :: qs2) acc = some [o] := by
  induction qs1 with
  | nil => intro acc; exact searchLoop_find_some st q qs2 o acc h2
  | cons x xs ih =>
      intro acc
      have hx : find_by_id st x = none := h1 x (by simp)
      have hxs : ∀ y ∈ xs, find_by_id st y = none := fun y hy => h1 y (by simp [hy])
      cases acc with
      | none => simp only [List.cons_append, searchLoop, hx]; exact ih hxs _
      | some rs =>
          simp only [List.cons_append, searchLoop, hx]
          by_cases hrs : rs.isEmpty
          · simp only [hrs, if_true]; exact ih hxs _
          · simp only [hrs, if_false]; exact ih hxs _

/-- C2: for every store holding exactly three objects tagged with the tag
sets containing t1 only, t2 only, and both t1 and t2, where neither query
term equals any object's id, `search [t1, t2]` returns exactly the single
object tagged with both t1 and t2 (AND semantics over tag membership). -/
theorem search_and_semantics_three_objects {α : Type} [DecidableEq α]
    (t1 t2 i1 i2 i3 : α)
    (hT : t1 ≠ t2)
    (h11 : i1 ≠ t1) (h21 : i2 ≠ t1) (h31 : i3 ≠ t1)
    (h12 : i1 ≠ t2) (h22 : i2 ≠ t2) (h32 : i3 ≠ t2) :
    search [⟨i1, [t1]⟩, ⟨i2, [t2]⟩, ⟨i3, [t1, t2]⟩] [t1, t2]
      = [⟨i3, [t1, t2]⟩] := by
  simp [search, searchLoop, find_by_id, find_by_tag, setInter,
        h11, h21, h31, h12, h22, h32, hT, hT.symm, SObj.mk.injEq]

/-- Witness for C2 at the concrete store with ids 1, 2, 3 and tags 100,
200. -/
theorem search_and_semantics_three_objects_witness :
    ((100 : ℕ) ≠ 200 ∧ (1 : ℕ) ≠ 100 ∧ (2 : ℕ) ≠ 100 ∧ (3 : ℕ) ≠ 100 ∧
      (1 : ℕ) ≠ 200 ∧ (2 : ℕ) ≠ 200 ∧ (3 : ℕ) ≠ 200) ∧
    search ([⟨1, [100]⟩, ⟨2, [200]⟩, ⟨3, [100, 200]⟩] : List (SObj ℕ))
        [100, 200] = [⟨3, [100, 200]⟩] :=
  ⟨by decide,
   search_and_semantics_three_objects 100 200 1 2 3 (by decide) (by decide)
     (by decide) (by decide) (by decide) (by decide) (by decide)⟩

/-- C3 counterexample: on the store holding an untagged object with id 1 and
an object with id 2 carrying tag 10, the query [1, 10] resolves its first
term as an exact id and returns that object, even though the object does not
carry tag 10 — so the result is not intersected with the tag-set matches of
the remaining query terms, refuting the claim. -/
theorem search_id_break_counterexample :
    search ([⟨1, []⟩, ⟨2, [10]⟩] : List (SObj ℕ)) [1, 10] = [⟨1, []⟩]
    ∧ (⟨1, []⟩ : SObj ℕ) ∉ find_by_tag ([⟨1, []⟩, ⟨2, [10]⟩] : List (SObj ℕ)) 10 := by
  constructor
  · decide
  · decide

/-- C3 amended: when a query term resolves as an exact object id (and no
earlier term does), the whole query evaluation short-circuits: `search`
returns exactly that single object, discarding the tag constraints of every
other query term and the accumulated intersection. -/
theorem search_id_match_short_circuits_query {α : Type} [DecidableEq α]
    (st : List (SObj α)) (qs1 : List α) (q : α) (qs2 : List α) (o : SObj α)
    (h1 : ∀ x ∈ qs1, find_by_id st x = none)
    (h2 : find_by_id st q = some o) :
    search st (qs1 ++ q :: qs2) = [o] := by
  have hloop := searchLoop_reaches st qs1 q qs2 o h1 h2 none
  simp [search, hloop]

/-- Witness for the amended C3 at a concrete store and query. -/
theorem search_id_match_short_circuits_query_witness :
    ((∀ x ∈ ([10] : List ℕ),
        find_by_id ([⟨1, []⟩, ⟨2, [10]⟩] : List (SObj ℕ)) x = none) ∧
      find_by_id ([⟨1, []⟩, ⟨2, [10]⟩] : List (SObj ℕ)) 1 = some ⟨1, []⟩) ∧
    search ([⟨1, []⟩, ⟨2, [10]⟩] : List (SObj ℕ)) ([10] ++ 1 :: []) = [⟨1, []⟩] :=
  ⟨⟨by decide, by decide⟩,
   search_id_match_short_circuits_query _ [10] 1 [] ⟨1, []⟩ (by decide) (by decide)⟩

/-! ## Worker registry (BaseWorker.get_worker and _get_worker_based_on_id,
lines 782-849)

Worker ids are naturals; a registered worker handle is modelled by the id of
the instance it denotes, which is all the resolution logic inspects. -/

structure WorkerReg where
  selfId : Nat
  knownWorkers : List (Nat × Nat)
deriving DecidableEq, Repr

inductive WorkerLookupError where
  | workerNotFound
deriving DecidableEq, Repr

/-- Outcome of worker resolution: the worker itself, a registered handle, or
the raw unresolved id (the code returns the default of
`self._known_workers.get(worker_id, worker_id)` in that case). -/
inductive ResolvedWorker where
  | selfWorker
  | handle (wid : Nat)
  | unresolvedId (wid : Nat)
deriving DecidableEq, Repr

/-- First-match association-list lookup, the shape of
`self._known_workers.get(worker_id, worker_id)` split into its hit and miss
cases. -/
def lookupWorker : List (Nat × Nat) → Nat → Option Nat
  | [], _ => none
  | (k, v) :: rest, wid => if k = wid then some v else lookupWorker rest wid

/-- Embeds `BaseWorker._get_worker_based_on_id` (lines 838-849): the
worker's own id resolves to itself; a registered id resolves to its handle;
an unknown id raises `WorkerNotFoundException` when `fail_hard` is set and
is otherwise returned unresolved (after logging a warning). -/
def get_worker_based_on_id (w : WorkerReg) (workerId : Nat) (failHard : Bool) :
    Except WorkerLookupError ResolvedWorker :=
  if workerId = w.selfId then .ok .selfWorker
  else
    match lookupWorker w.knownWorkers workerId with
    | some h => .ok (.handle h)
    | none =>
        if failHard then .error .workerNotFound
        else .ok (.unresolvedId workerId)

/-- Embeds `BaseWorker.get_worker` (lines 782-831) applied to a plain id:
string and integer ids are dispatched to `_get_worker_based_on_id`
(lines 828-829); the branch taking a worker instance is not involved in the
claims. -/
def get_worker (w : WorkerReg) (workerId : Nat) (failHard : Bool) :
    Except WorkerLookupError ResolvedWorker :=
  get_worker_based_on_id w workerId failHard

theorem lookupWorker_eq_none_of_not_mem (l : List (Nat × Nat)) (wid : Nat)
    (h : wid ∉ l.map Prod.fst) : lookupWorker l wid = none := by
  induction l with
  | nil => rfl
  | cons p rest ih =>
      have hne : p.1 ≠ wid := by
        intro he; exact h (by simp [he.symm])
      have hrest : wid ∉ rest.map Prod.fst := by
        intro hm; exact h (by simp [hm])
      cases p with
      | mk k v => simpa [lookupWorker, hne] using ih hrest

/-- C4: for an id that is neither the worker's own id nor a key of its
registry, `get_worker` with `fail_hard=True` raises
`WorkerNotFoundException` and with `fail_hard=False` returns the unresolved
id itself without raising; for the worker's own id it returns the worker
itself. -/
theorem get_worker_registry_strictness (w : WorkerReg) (wid : Nat)
    (hSelf : wid ≠ w.selfId)
    (hAbsent : wid ∉ w.knownWorkers.map Prod.fst) :
    get_worker w wid true = .error .workerNotFound
    ∧ get_worker w wid false = .ok (.unresolvedId wid)
    ∧ ∀ fh : Bool, get_worker w w.selfId fh = .ok .selfWorker := by
  have hlk := lookupWorker_eq_none_of_not_mem w.knownWorkers wid hAbsent
  refine ⟨?_, ?_, ?_⟩
  · simp [get_worker, get_worker_based_on_id, hSelf, hlk]
  · simp [get_worker, get_worker_based_on_id, hSelf, hlk]
  · intro fh; simp [get_worker, get_worker_based_on_id]

/-- Witness for C4: worker 0 knows worker 1; id 5 is unknown. -/
theorem get_worker_registry_strictness_witness :
    ((5 : ℕ) ≠ 0 ∧ (5 : ℕ) ∉ ([(1, 1)] : List (Nat × Nat)).map Prod.fst) ∧
    (get_worker ⟨0, [(1, 1)]⟩ 5 true = .error .workerNotFound
      ∧ get_worker ⟨0, [(1, 1)]⟩ 5 false = .ok (.unresolvedId 5)
      ∧ ∀ fh : Bool, get_worker ⟨0, [(1, 1)]⟩ 0 fh = .ok .selfWorker) :=
  ⟨by decide, get_worker_registry_strictness ⟨0, [(1, 1)]⟩ 5 (by decide) (by decide)⟩

/-! ## Object access (BaseWorker.get_obj, is_object_none,
respond_to_obj_req, lines 686-722 and 944-950)

A stored object is modelled by its id, an opaque payload, and the three
optional capabilities the code probes with `hasattr`: the `private` flag,
the garbage-collection toggle reached through `obj.child
.set_garbage_collect_data` (present with its current value, or absent), and
the `allow` capability (modelled extensionally by the list of permitted
users). -/

structure VObj where
  oid : Nat
  payload : Nat
  privateAttr : Option Bool
  gcToggle : Option Bool
  allowUsers : Option (List Nat)
deriving DecidableEq, Repr

abbrev VStore := List VObj

inductive ObjErr where
  | objectNotFound
  | getNotPermitted
deriving DecidableEq, Repr

/-- Modelled from the spec: `ObjectStore` lookup by id (`object_storage.py`
is not among the sources); `get(id)` yields the entry or NotFound. -/
def storeFind : VStore → Nat → Option VObj
  | [], _ => none
  | o :: rest, i => if o.oid = i then some o else storeFind rest i

/-- In-place mutation of the stored object: every entry with the given id is
replaced by the mutated object (the Python object is aliased by the
store). -/
def storeUpdate : VStore → Nat → VObj → VStore
  | [], _, _ => []
  | o :: rest, i, o2 =>
      if o.oid = i then o2 :: storeUpdate rest i o2 else o :: storeUpdate rest i o2

/-- Mutation performed by `get_obj` when the value exposes a GC toggle:
`obj.child.set_garbage_collect_data(value=False)` (lines 699-700). -/
def setGcFalse (o : VObj) : VObj :=
  match o.gcToggle with
  | some _ => { o with gcToggle := some false }
  | none => o

/-- Embeds `BaseWorker.get_obj` (lines 686-705).  The inner
`ObjectStore.get_obj` is modelled from the spec: it raises
`ObjectNotFoundError` on an absent id.  On a hit, the GC toggle of the value
is forced off when present, and a value flagged private is withheld: `None`
is returned though the entry exists. -/
def get_obj (st : VStore) (objId : Nat) : Except ObjErr (Option VObj × VStore) :=
  match storeFind st objId with
  | none => .error .objectNotFound
  | some obj =>
      let obj2 := setGcFalse obj
      let st2 := storeUpdate st objId obj2
      if obj2.privateAttr = some true then .ok (none, st2)
      else .ok (some obj2, st2)

/-- Embeds `BaseWorker.is_object_none` (lines 944-950): an absent id raises
`ObjectNotFoundError`; otherwise the probe reports whether `get_obj`
produced `None`. -/
def is_object_none (st : VStore) (objId : Nat) : Except ObjErr (Bool × VStore) :=
  match storeFind st objId with
  | none => .error .objectNotFound
  | some _ =>
      match get_obj st objId with
      | .ok (obj, st2) => .ok (obj.isNone, st2)
      | .error e => .error e

/-- Embeds `BaseWorker.de_register_obj` (lines 739-749): a no-op for client
workers; the underlying `ObjectStore.de_register_obj` is modelled from the
spec: deregistering removes the bookkeeping entry for the object's id.  The
code never reaches this with a missing object in the claims considered. -/
def de_register_obj (isClientWorker : Bool) (st : VStore) (obj : Option VObj) :
    VStore :=
  if isClientWorker then st
  else
    match obj with
    | some o => st.filter (fun x => x.oid ≠ o.oid)
    | none => st

/-- Embeds `BaseWorker.respond_to_obj_req` (lines 707-722): look the object
up through `get_obj`; when it exposes an `allow` capability that denies the
requesting user, raise `GetNotPermittedError`; otherwise deregister the
object and return it. -/
def respond_to_obj_req (isClientWorker : Bool) (st : VStore) (objId user : Nat) :
    Except ObjErr (Option VObj × VStore) :=
  match get_obj st objId with
  | .error e => .error e
  | .ok (obj, st2) =>
      match obj with
      | some o =>
          match o.allowUsers with
          | some allowed =>
              if user ∈ allowed then
                .ok (some o, de_register_obj isClientWorker st2 (some o))
              else .error .getNotPermitted
          | none => .ok (some o, de_register_obj isClientWorker st2 (some o))
      | none => .ok (none, de_register_obj isClientWorker st2 none)

/-! ### Helper lemmas about the object store -/

@[simp] theorem setGcFalse_oid (o : VObj) : (setGcFalse o).oid = o.oid := by
  cases h : o.gcToggle <;> simp [setGcFalse, h]

@[simp] theorem setGcFalse_privateAttr (o : VObj) :
    (setGcFalse o).privateAttr = o.privateAttr := by
  cases h : o.gcToggle <;> simp [setGcFalse, h]

@[simp] theorem setGcFalse_allowUsers (o : VObj) :
    (setGcFalse o).allowUsers = o.allowUsers := by
  cases h : o.gcToggle <;> simp [setGcFalse, h]

theorem setGcFalse_gcToggle_of_some (o : VObj) (b : Bool)
    (h : o.gcToggle = some b) : (setGcFalse o).gcToggle = some false := by
  simp [setGcFalse, h]

theorem storeFind_oid (st : VStore) (i : Nat) (o : VObj)
    (h : storeFind st i = some o) : o.oid = i := by
  induction st with
  | nil => simp [storeFind] at h
  | cons x rest ih =>
      by_cases hx : x.oid = i
      · simp only [storeFind, hx, if_true, Option.some.injEq] at h
        rw [← h]; exact hx
      · simp only [storeFind, hx, if_false] at h
        exact ih h

theorem storeFind_storeUpdate_self (st : VStore) (i : Nat) (v : VObj)
    (hv : v.oid = i) (h : (storeFind st i).isSome) :
    storeFind (storeUpdate st i v) i = some v := by
  induction st with
  | nil => simp [storeFind] at h
  | cons x rest ih =>
      by_cases hx : x.oid = i
      · simp [storeUpdate, storeFind, hx, hv]
      · simp only [storeUpdate, hx, if_false]
        simp only [storeFind, hx, if_false] at h ⊢
        exact ih h

theorem storeFind_filter_ne (st : VStore) (i : Nat) :
    storeFind (st.filter (fun x => x.oid ≠ i)) i = none := by
  induction st with
  | nil => rfl
  | cons x rest ih =>
      simp only [ne_eq, decide_not] at ih ⊢
      by_cases hx : x.oid = i
      · simpa [List.filter_cons, hx] using ih
      · simp [List.filter_cons, hx, storeFind, ih]

/-- C5: `is_object_none` raises `ObjectNotFoundError` on an absent id, while
for a present entry flagged private, `get_obj` returns an absent result and
`is_object_none` returns True — the probe distinguishes an absent entry from
a present-but-private one. -/
theorem is_object_none_distinguishes (stA stB : VStore) (idA idB : Nat)
    (o : VObj)
    (hA : storeFind stA idA = none)
    (hB : storeFind stB idB = some o)
    (hPriv : o.privateAttr = some true) :
    is_object_none stA idA = .error .objectNotFound
    ∧ get_obj stB idB = .ok (none, storeUpdate stB idB (setGcFalse o))
    ∧ is_object_none stB idB = .ok (true, storeUpdate stB idB (setGcFalse o)) := by
  have hget : get_obj stB idB = .ok (none, storeUpdate stB idB (setGcFalse o)) := by
    simp [get_obj, hB, hPriv]
  refine ⟨?_, hget, ?_⟩
  · simp [is_object_none, hA]
  · simp [is_object_none, hB, hget]

/-- Witness for C5: store A is empty; store B holds one private object with
id 7. -/
theorem is_object_none_distinguishes_witness :
    (storeFind [] 0 = none
      ∧ storeFind [⟨7, 42, some true, none, none⟩] 7
          = some ⟨7, 42, some true, none, none⟩
      ∧ (VObj.privateAttr ⟨7, 42, some true, none, none⟩) = some true) ∧
    (is_object_none [] 0 = .error .objectNotFound
      ∧ get_obj [⟨7, 42, some true, none, none⟩] 7
          = .ok (none, storeUpdate [⟨7, 42, some true, none, none⟩] 7
              (setGcFalse ⟨7, 42, some true, none, none⟩))
      ∧ is_object_none [⟨7, 42, some true, none, none⟩] 7
          = .ok (true, storeUpdate [⟨7, 42, some true, none, none⟩] 7
              (setGcFalse ⟨7, 42, some true, none, none⟩))) :=
  ⟨⟨by decide, by decide, by decide⟩,
   is_object_none_distinguishes [] [⟨7, 42, some true, none, none⟩] 0 7
     ⟨7, 42, some true, none, none⟩ (by decide) (by decide) (by decide)⟩

/-- C7: after `get_obj` on a stored object exposing a garbage-collection
toggle, the stored object's toggle reports do-not-collect, and the value
retrieved (when the object is not withheld as private) is that same mutated
object, whose toggle also reports do-not-collect. -/
theorem get_obj_forces_gc_off (st : VStore) (objId : Nat) (o : VObj) (b : Bool)
    (hFind : storeFind st objId = some o)
    (hTog : o.gcToggle = some b) :
    get_obj st objId
        = .ok ((if o.privateAttr = some true then none else some (setGcFalse o)),
            storeUpdate st objId (setGcFalse o))
    ∧ storeFind (storeUpdate st objId (setGcFalse o)) objId = some (setGcFalse o)
    ∧ (setGcFalse o).gcToggle = some false := by
  have hoid : (setGcFalse o).oid = objId := by
    rw [setGcFalse_oid]; exact storeFind_oid st objId o hFind
  refine ⟨?_, ?_, setGcFalse_gcToggle_of_some o b hTog⟩
  · by_cases hp : o.privateAttr = some true <;> simp [get_obj, hFind, hp]
  · exact storeFind_storeUpdate_self st objId (setGcFalse o) hoid (by simp [hFind])

/-- Witness for C7 at a store holding one object with id 3 whose GC toggle
is on. -/
theorem get_obj_forces_gc_off_witness :
    (storeFind [⟨3, 9, none, some true, none⟩] 3
        = some ⟨3, 9, none, some true, none⟩
      ∧ (VObj.gcToggle ⟨3, 9, none, some true, none⟩) = some true) ∧
    (get_obj [⟨3, 9, none, some true, none⟩] 3
        = .ok ((if (VObj.privateAttr ⟨3, 9, none, some true, none⟩) = some true
              then none else some (setGcFalse ⟨3, 9, none, some true, none⟩)),
            storeUpdate [⟨3, 9, none, some true, none⟩] 3
              (setGcFalse ⟨3, 9, none, some true, none⟩))
      ∧ storeFind (storeUpdate [⟨3, 9, none, some true, none⟩] 3
            (setGcFalse ⟨3, 9, none, some true, none⟩)) 3
          = some (setGcFalse ⟨3, 9, none, some true, none⟩)
      ∧ (setGcFalse ⟨3, 9, none, some true, none⟩).gcToggle = some false) :=
  ⟨⟨by decide, by decide⟩,
   get_obj_forces_gc_off [⟨3, 9, none, some true, none⟩] 3
     ⟨3, 9, none, some true, none⟩ true (by decide) (by decide)⟩

/-- C9: `respond_to_obj_req` raises `GetNotPermittedError` when the
looked-up object exposes an allow capability denying the requester; when the
request is permitted (no allow capability, or the capability accepts the
user), the object is returned and is no longer registered on the responding
worker afterwards. -/
theorem respond_to_obj_req_spec (stA stB : VStore) (idA idB uA uB : Nat)
    (oA oB : VObj) (allowedA : List Nat)
    (hFindA : storeFind stA idA = some oA)
    (hPrivA : oA.privateAttr ≠ some true)
    (hAllowA : oA.allowUsers = some allowedA)
    (hDenyA : uA ∉ allowedA)
    (hFindB : storeFind stB idB = some oB)
    (hPrivB : oB.privateAttr ≠ some true)
    (hAllowB : oB.allowUsers = none
      ∨ ∃ l, oB.allowUsers = some l ∧ uB ∈ l) :
    respond_to_obj_req false stA idA uA = .error .getNotPermitted
    ∧ ∃ st2, respond_to_obj_req false stB idB uB = .ok (some (setGcFalse oB), st2)
        ∧ storeFind st2 idB = none := by
  constructor
  · simp [respond_to_obj_req, get_obj, hFindA, hPrivA, hAllowA, hDenyA]
  · have hoid : (setGcFalse oB).oid = idB := by
      rw [setGcFalse_oid]; exact storeFind_oid stB idB oB hFindB
    refine ⟨(storeUpdate stB idB (setGcFalse oB)).filter
        (fun x => x.oid ≠ (setGcFalse oB).oid), ?_, ?_⟩
    · rcases hAllowB with hnone | ⟨l, hl, hu⟩
      · simp [respond_to_obj_req, get_obj, hFindB, hPrivB, de_register_obj, hnone]
      · simp [respond_to_obj_req, get_obj, hFindB, hPrivB, de_register_obj, hl, hu]
    · rw [hoid]; exact storeFind_filter_ne _ idB

/-- Witness for C9: store A holds an object whose allow list excludes user
5; store B holds an object whose allow list contains user 6. -/
theorem respond_to_obj_req_spec_witness :
    (storeFind [⟨1, 11, none, none, some [4]⟩] 1
        = some ⟨1, 11, none, none, some [4]⟩
      ∧ (VObj.privateAttr ⟨1, 11, none, none, some [4]⟩) ≠ some true
      ∧ (VObj.allowUsers ⟨1, 11, none, none, some [4]⟩) = some [4]
      ∧ (5 : ℕ) ∉ ([4] : List ℕ)
      ∧ storeFind [⟨2, 22, none, none, some [6]⟩] 2
          = some ⟨2, 22, none, none, some [6]⟩
      ∧ (VObj.privateAttr ⟨2, 22, none, none, some [6]⟩) ≠ some true
      ∧ ((VObj.allowUsers ⟨2, 22, none, none, some [6]⟩) = none
          ∨ ∃ l, (VObj.allowUsers ⟨2, 22, none, none, some [6]⟩) = some l
              ∧ (6 : ℕ) ∈ l)) ∧
    (respond_to_obj_req false [⟨1, 11, none, none, some [4]⟩] 1 5
        = .error .getNotPermitted
      ∧ ∃ st2, respond_to_obj_req false [⟨2, 22, none, none, some [6]⟩] 2 6
            = .ok (some (setGcFalse ⟨2, 22, none, none, some [6]⟩), st2)
          ∧ storeFind st2 2 = none) :=
  ⟨⟨by decide, by decide, by decide, by decide, by decide, by decide,
    Or.inr ⟨[6], by decide, by decide⟩⟩,
   respond_to_obj_req_spec [⟨1, 11, none, none, some [4]⟩]
     [⟨2, 22, none, none, some [6]⟩] 1 2 5 6
     ⟨1, 11, none, none, some [4]⟩ ⟨2, 22, none, none, some [6]⟩ [4]
     (by decide) (by decide) (by decide) (by decide) (by decide) (by decide)
     (Or.inr ⟨[6], by decide, by decide⟩)⟩

/-! ## Id provider

Modelled from the spec: `sy.ID_PROVIDER` hands out ids for new objects and
pointers.  `nextIds` holds ids seeded by `set_next_ids` and is consumed
first; afterwards fresh ids come from a counter (the real provider draws
random ids, of which only freshness matters here). -/

structure IdProvider where
  nextIds : List Nat
  counter : Nat
deriving DecidableEq, Repr

/-- Modelled from the spec: `ID_PROVIDER.pop` yields the next seeded id if
any, and a fresh id otherwise. -/
def IdProvider.pop : IdProvider → Nat × IdProvider
  | ⟨i :: rest, c⟩ => (i, ⟨rest, c⟩)
  | ⟨[], c⟩ => (c, ⟨[], c + 1⟩)

/-! ## Sending an object (BaseWorker.send, lines 358-452) -/

/-- The facets of the sent object that `send` inspects: its id, an opaque
payload, whether it exposes `create_pointer`, whether it is a protocol
object, and the origin fields written for grad-tracked transfers. -/
structure SendObj where
  oid : Nat
  payload : Nat
  hasCreatePointer : Bool
  isProtocol : Bool
  origin : Option Nat
  idAtOrigin : Option Nat
deriving DecidableEq, Repr

inductive SendError where
  | noWorkersProvided
  | multipleWorkersNotImplemented
deriving DecidableEq, Repr

structure PointerT where
  location : Nat
  idAtLocation : Nat
  owner : Nat
  ptrId : Nat
deriving DecidableEq, Repr

inductive SendOutcome where
  | noPointer
  | ptr (p : PointerT)
  | rawObj (o : SendObj)
deriving DecidableEq, Repr

/-- Embeds `BaseWorker.send` (lines 358-452).  Serialization and transport
are external; a transmission performed by `send_obj` is recorded as the pair
of the object's payload and the destination id, and the middle component of
the result lists the transmissions that took place.  Pointer creation
(`type(obj).create_pointer`) is modelled from the spec: allocate a fresh
`ptr_id` when the caller supplied none and bind the pointer to the
destination; objects without `create_pointer`, and protocol objects, are
returned as themselves. -/
def send (selfId : Nat) (obj : SendObj) (workers : List Nat)
    (ptrId : Option Nat) (requiresGrad createPointer : Bool)
    (prov : IdProvider) :
    Except SendError SendOutcome × List (Nat × Nat) × IdProvider :=
  match workers with
  | [] => (.error .noWorkersProvided, [], prov)
  | [worker] =>
      let obj1 :=
        if requiresGrad then
          { obj with origin := some selfId, idAtOrigin := some obj.oid }
        else obj
      let transmitted := [(obj1.payload, worker)]
      let obj2 :=
        if requiresGrad then { obj1 with origin := none, idAtOrigin := none }
        else obj1
      if !createPointer then (.ok .noPointer, transmitted, prov)
      else if obj2.hasCreatePointer && !obj2.isProtocol then
        match ptrId with
        | some pid =>
            (.ok (.ptr ⟨worker, obj2.oid, selfId, pid⟩), transmitted, prov)
        | none =>
            let popped := prov.pop
            (.ok (.ptr ⟨worker, obj2.oid, selfId, popped.1⟩), transmitted,
              popped.2)
      else (.ok (.rawObj obj2), transmitted, prov)
  | _ :: _ :: _ => (.error .multipleWorkersNotImplemented, [], prov)

/-- C6: a call to `send` with more than one destination worker is rejected
with `NotImplementedError` before any object is transmitted (the recorded
transmission list is empty); exactly one destination per call is
supported. -/
theorem send_rejects_multiple_workers (selfId : Nat) (obj : SendObj)
    (workers : List Nat) (ptrId : Option Nat) (rg cp : Bool)
    (prov : IdProvider) (h : 1 < workers.length) :
    send selfId obj workers ptrId rg cp prov
      = (.error .multipleWorkersNotImplemented, [], prov) := by
  match workers with
  | [] => simp at h
  | [w] => simp at h
  | a :: b :: rest => rfl

/-- Witness for C6 with two destination workers. -/
theorem send_rejects_multiple_workers_witness :
    1 < ([1, 2] : List Nat).length ∧
    send 0 ⟨10, 99, true, false, none, none⟩ [1, 2] none false true ⟨[], 0⟩
      = (.error .multipleWorkersNotImplemented, [], ⟨[], 0⟩) :=
  ⟨by decide,
   send_rejects_multiple_workers 0 ⟨10, 99, true, false, none, none⟩ [1, 2]
     none false true ⟨[], 0⟩ (by decide)⟩

/-! ## Remote command execution
(BaseWorker.execute_computation_action, lines 495-572, and
BaseWorker.send_command, lines 632-684)

A value produced by an invoked operation is a scalar, bytes, a tensor, or a
tuple of such atoms — the shapes the response-registration step binds to
return ids. -/

inductive PyAtom where
  | aint (n : Int)
  | afloat (payload : Nat)
  | abool (b : Bool)
  | astr (s : String)
  | abytes (payload : Nat)
  | atensor (payload : Nat)
deriving DecidableEq, Repr

inductive PyVal where
  | atom (a : PyAtom)
  | vtuple (elems : List PyAtom)
deriving DecidableEq, Repr

/-- The Python test `isinstance(response, (int, float, bool, str))` of
line 562 (bytes, tensors and tuples are none of these types). -/
def PyVal.isScalarType : PyVal → Bool
  | .atom (.aint _) => true
  | .atom (.afloat _) => true
  | .atom (.abool _) => true
  | .atom (.astr _) => true
  | _ => false

/-- The individual values of a response as bound to return ids: a tuple
contributes its elements, any other value contributes itself. -/
def responseValues : PyVal → List PyAtom
  | .atom a => [a]
  | .vtuple elems => elems

/-- Store of registered result values; an entry shadows any older entry with
the same id, and `tgetObj` returns the newest, which is the observable
behaviour of the Python dict assignment performed on registration. -/
abbrev TStore := List (Nat × PyAtom)

def tsetObj (st : TStore) (i : Nat) (v : PyAtom) : TStore := (i, v) :: st

def tgetObj : TStore → Nat → Option PyAtom
  | [], _ => none
  | (j, v) :: rest, i => if j = i then some v else tgetObj rest i

/-- Modelled from the spec: `hook_args.register_response` with an explicit
id list binds the returned value(s) to exactly `len(return_ids)` pointers,
registering each value under its id, and raises `ResponseSignatureError`
when the response's internal shape does not match (`hook_args.py` is not
among the sources). -/
def register_response (response : PyVal) (returnIds : List Nat) (st : TStore) :
    Except Unit (PyVal × TStore) :=
  let vs := responseValues response
  if vs.length = returnIds.length then
    .ok (response, (returnIds.zip vs).foldl (fun s p => tsetObj s p.1 p.2) st)
  else .error ()

/-- Modelled from the spec: `hook_args.register_response` called with the id
provider instead of an id list pops one id per resulting value (the ids
seeded by `set_next_ids` come first), registers each value under the popped
id, and the ids recorded by the provider are exactly the popped ones in
order. -/
def register_response_record :
    List PyAtom → IdProvider → TStore → List Nat × IdProvider × TStore
  | [], prov, st => ([], prov, st)
  | v :: vs, prov, st =>
      let popped := prov.pop
      let rest := register_response_record vs popped.2 (tsetObj st popped.1 v)
      (popped.1 :: rest.1, rest.2.1, rest.2.2)

/-- Outcome of `execute_computation_action`: a raw value returned to the
caller, a `None` return, or a raised `ResponseSignatureError` carrying the
generated ids. -/
inductive CompOutcome where
  | value (v : PyVal)
  | retNone
  | responseSignatureError (idsGenerated : List Nat)
deriving DecidableEq, Repr

/-- Embeds the response-handling tail of
`BaseWorker.execute_computation_action` (lines 555-572).  `response` is the
raw value produced by the invoked operation (`none` when the operation
returned nothing; the resolution and invocation of the operation itself,
lines 511-553, happen before this point).  A successfully bound response is
returned raw when `return_value` is set or it is an int, float, bool or str,
and otherwise dropped; a shape mismatch seeds the id provider with the
requested return ids, re-registers the response recording the ids actually
used, and raises `ResponseSignatureError` carrying them. -/
def execute_computation_action_response (returnValue : Bool)
    (returnIds : List Nat) (response : Option PyVal) (st : TStore)
    (prov : IdProvider) : CompOutcome × TStore × IdProvider :=
  match response with
  | none => (.retNone, st, prov)
  | some r =>
      match register_response r returnIds st with
      | .ok (r2, st2) =>
          if returnValue || r2.isScalarType then (.value r2, st2, prov)
          else (.retNone, st2, prov)
      | .error _ =>
          let prov1 : IdProvider := ⟨returnIds, prov.counter⟩
          let rec1 := register_response_record (responseValues r) prov1 st
          (.responseSignatureError rec1.1, rec1.2.2, rec1.2.1)

/-- The forms a `send_command` result can take: a list of pointers, a single
pointer (when exactly one return id was used), or the raw returned value. -/
inductive CmdResponses where
  | ptrList (ps : List PointerT)
  | singlePtr (p : PointerT)
  | raw (v : PyVal)
deriving DecidableEq, Repr

/-- The pointer-construction loop of `send_command` (lines 670-678): one
`PointerTensor` per return id, located at the recipient, with a fresh local
id popped from the provider. -/
def makeResponsePointers (selfId recipient : Nat) :
    List Nat → IdProvider → List PointerT × IdProvider
  | [], prov => ([], prov)
  | rid :: rest, prov =>
      let popped := prov.pop
      let ps := makeResponsePointers selfId recipient rest popped.2
      (⟨recipient, rid, selfId, popped.1⟩ :: ps.1, ps.2)

/-- The unwrapping of lines 680-681: a single pointer is returned bare. -/
def finalizeResponses (returnIds : List Nat) (ps : List PointerT) :
    CmdResponses :=
  match returnIds, ps with
  | [_], [p] => .singlePtr p
  | _, _ => .ptrList ps

/-- Embeds `BaseWorker.send_command` (lines 632-684).  `remote` stands for
the outcome the recipient's `execute_computation_action` delivers through
`send_msg`: a returned value, `None`, or a raised `ResponseSignatureError`,
which is caught and replaces the return ids with the ids carried by the
error.  Pointers are then built when the reply is `None` or bytes; any other
reply is returned as is. -/
def send_command (selfId recipient : Nat) (returnIds0 : Option (List Nat))
    (remote : CompOutcome) (prov : IdProvider) : CmdResponses × IdProvider :=
  let start :=
    match returnIds0 with
    | none => let popped := prov.pop; ([popped.1], popped.2)
    | some ids => (ids, prov)
  let returnIds := start.1
  let provA := start.2
  match remote with
  | .value (.atom (.abytes _)) =>
      let built := makeResponsePointers selfId recipient returnIds provA
      (finalizeResponses returnIds built.1, built.2)
  | .value v => (.raw v, provA)
  | .retNone =>
      let built := makeResponsePointers selfId recipient returnIds provA
      (finalizeResponses returnIds built.1, built.2)
  | .responseSignatureError ids =>
      let built := makeResponsePointers selfId recipient ids provA
      (finalizeResponses ids built.1, built.2)

/-- The ids at location of the pointers in a `send_command` result. -/
def cmdPointerIds : CmdResponses → List Nat
  | .ptrList ps => ps.map PointerT.idAtLocation
  | .singlePtr p => [p.idAtLocation]
  | .raw _ => []

/-! ### Helper lemmas about response registration and pointer building -/

@[simp] theorem tgetObj_tsetObj_self (st : TStore) (i : Nat) (v : PyAtom) :
    tgetObj (tsetObj st i v) i = some v := by
  simp [tsetObj, tgetObj]

theorem tgetObj_tsetObj_ne (st : TStore) (i j : Nat) (v : PyAtom)
    (h : j ≠ i) : tgetObj (tsetObj st j v) i = tgetObj st i := by
  simp [tsetObj, tgetObj, h]

theorem register_response_record_length (vs : List PyAtom) :
    ∀ (prov : IdProvider) (st : TStore),
      (register_response_record vs prov st).1.length = vs.length := by
  induction vs with
  | nil => intro prov st; rfl
  | cons v rest ih => intro prov st; simp [register_response_record, ih]

theorem register_response_record_preserve (vs : List PyAtom) :
    ∀ (prov : IdProvider) (st : TStore) (i : Nat),
      i ∉ (register_response_record vs prov st).1 →
      tgetObj (register_response_record vs prov st).2.2 i = tgetObj st i := by
  induction vs with
  | nil => intro prov st i _; rfl
  | cons v rest ih =>
      intro prov st i hi
      simp only [register_response_record, List.mem_cons, not_or] at hi
      have h2 := ih prov.pop.2 (tsetObj st prov.pop.1 v) i hi.2
      calc tgetObj (register_response_record (v :: rest) prov st).2.2 i
          = tgetObj (register_response_record rest prov.pop.2
              (tsetObj st prov.pop.1 v)).2.2 i := rfl
        _ = tgetObj (tsetObj st prov.pop.1 v) i := h2
        _ = tgetObj st i :=
            tgetObj_tsetObj_ne st i prov.pop.1 v (fun he => hi.1 he.symm)

theorem register_response_record_registers (vs : List PyAtom) :
    ∀ (prov : IdProvider) (st : TStore),
      ((register_response_record vs prov st).1).Nodup →
      ∀ p ∈ ((register_response_record vs prov st).1).zip vs,
        tgetObj (register_response_record vs prov st).2.2 p.1 = some p.2 := by
  induction vs with
  | nil => intro prov st _ p hp; simp [register_response_record] at hp
  | cons v rest ih =>
      intro prov st hnd p hp
      have hids : (register_response_record (v :: rest) prov st).1
          = prov.pop.1 :: (register_response_record rest prov.pop.2
              (tsetObj st prov.pop.1 v)).1 := rfl
      rw [hids] at hnd hp
      rw [List.zip_cons_cons] at hp
      have hnotin : prov.pop.1 ∉ (register_response_record rest prov.pop.2
          (tsetObj st prov.pop.1 v)).1 := (List.nodup_cons.mp hnd).1
      have hndrest := (List.nodup_cons.mp hnd).2
      rcases List.mem_cons.mp hp with hhead | htail
      · subst hhead
        calc tgetObj (register_response_record (v :: rest) prov st).2.2 prov.pop.1
            = tgetObj (register_response_record rest prov.pop.2
                (tsetObj st prov.pop.1 v)).2.2 prov.pop.1 := rfl
          _ = tgetObj (tsetObj st prov.pop.1 v) prov.pop.1 :=
              register_response_record_preserve rest prov.pop.2
                (tsetObj st prov.pop.1 v) prov.pop.1 hnotin
          _ = some v := tgetObj_tsetObj_self st prov.pop.1 v
      · exact ih prov.pop.2 (tsetObj st prov.pop.1 v) hndrest p htail

theorem makeResponsePointers_ids (selfId recipient : Nat) (ids : List Nat) :
    ∀ prov, (makeResponsePointers selfId recipient ids prov).1.map
        PointerT.idAtLocation = ids := by
  induction ids with
  | nil => intro prov; rfl
  | cons i rest ih => intro prov; simp [makeResponsePointers, ih]

theorem cmdPointerIds_finalize (ids : List Nat) (ps : List PointerT) :
    cmdPointerIds (finalizeResponses ids ps) = ps.map PointerT.idAtLocation := by
  unfold finalizeResponses
  split <;> rfl

theorem send_command_sigError_ids (sid rid : Nat) (origIds newIds : List Nat)
    (prov : IdProvider) :
    cmdPointerIds (send_command sid rid (some origIds)
        (.responseSignatureError newIds) prov).1 = newIds := by
  simp [send_command, cmdPointerIds_finalize, makeResponsePointers_ids]

/-- C1: when `execute_computation_action` obtains a non-None response whose
shape cannot be bound to exactly `len(return_ids)` pointers, it generates
ids for however many values actually resulted, registers the results under
them, and raises `ResponseSignatureError` carrying exactly those ids;
`send_command` catches the error and constructs its result pointers from
the carried ids instead of the originally requested return ids. -/
theorem renegotiation_on_arity_mismatch (returnValue : Bool)
    (returnIds : List Nat) (r : PyVal) (st : TStore) (prov : IdProvider)
    (hMismatch : (responseValues r).length ≠ returnIds.length) :
    ∃ newIds st2 prov2,
      execute_computation_action_response returnValue returnIds (some r) st prov
        = (.responseSignatureError newIds, st2, prov2)
      ∧ newIds.length = (responseValues r).length
      ∧ (newIds.Nodup →
          ∀ p ∈ newIds.zip (responseValues r), tgetObj st2 p.1 = some p.2)
      ∧ ∀ (sid rid : Nat) (prov3 : IdProvider),
          cmdPointerIds (send_command sid rid (some returnIds)
              (.responseSignatureError newIds) prov3).1 = newIds := by
  refine ⟨(register_response_record (responseValues r) ⟨returnIds, prov.counter⟩ st).1,
          (register_response_record (responseValues r) ⟨returnIds, prov.counter⟩ st).2.2,
          (register_response_record (responseValues r) ⟨returnIds, prov.counter⟩ st).2.1,
          ?_, ?_, ?_, ?_⟩
  · simp [execute_computation_action_response, register_response, hMismatch]
  · exact register_response_record_length (responseValues r) ⟨returnIds, prov.counter⟩ st
  · exact register_response_record_registers (responseValues r) ⟨returnIds, prov.counter⟩ st
  · intro sid rid prov3
    exact send_command_sigError_ids sid rid returnIds _ prov3

/-- Witness for C1: two return ids are requested but the operation yields a
tuple of three tensors. -/
theorem renegotiation_on_arity_mismatch_witness :
    (responseValues (.vtuple [.atensor 1, .atensor 2, .atensor 3])).length
        ≠ ([5, 6] : List Nat).length ∧
    (∃ newIds st2 prov2,
      execute_computation_action_response false [5, 6]
          (some (.vtuple [.atensor 1, .atensor 2, .atensor 3])) [] ⟨[], 100⟩
        = (.responseSignatureError newIds, st2, prov2)
      ∧ newIds.length
          = (responseValues (.vtuple [.atensor 1, .atensor 2, .atensor 3])).length
      ∧ (newIds.Nodup →
          ∀ p ∈ newIds.zip (responseValues
              (.vtuple [.atensor 1, .atensor 2, .atensor 3])),
            tgetObj st2 p.1 = some p.2)
      ∧ ∀ (sid rid : Nat) (prov3 : IdProvider),
          cmdPointerIds (send_command sid rid (some [5, 6])
              (.responseSignatureError newIds) prov3).1 = newIds) :=
  ⟨by decide,
   renegotiation_on_arity_mismatch false [5, 6]
     (.vtuple [.atensor 1, .atensor 2, .atensor 3]) [] ⟨[], 100⟩ (by decide)⟩

/-- C8: a successfully bound non-None response of
`execute_computation_action` is returned raw exactly when the action's
`return_value` flag is set or the response is an int, float, bool or str;
in every other successfully bound case the handler returns None. -/
theorem return_value_bypass_policy (returnValue : Bool) (returnIds : List Nat)
    (r : PyVal) (st : TStore) (prov : IdProvider)
    (hBind : (responseValues r).length = returnIds.length) :
    (execute_computation_action_response returnValue returnIds (some r) st prov).1
      = if returnValue || r.isScalarType then .value r else .retNone := by
  simp only [execute_computation_action_response, register_response, hBind,
    if_true, if_pos]
  split <;> rfl

/-- Witness for C8: a plain integer response bound to a single return id is
returned raw even with the `return_value` flag unset. -/
theorem return_value_bypass_policy_witness :
    (responseValues (.atom (.aint 3))).length = ([5] : List Nat).length ∧
    (execute_computation_action_response false [5] (some (.atom (.aint 3)))
          [] ⟨[], 0⟩).1
      = if false || (PyVal.atom (.aint 3)).isScalarType
        then .value (.atom (.aint 3)) else .retNone :=
  ⟨by decide,
   return_value_bypass_policy false [5] (.atom (.aint 3)) [] ⟨[], 0⟩ (by decide)⟩

/-! ## Message router (BaseWorker.__init__, _message_router, lines 122-134)

The router is a Python dict literal keyed by message type.  The literal
names the key `ForceObjectDeleteMessage` twice (lines 129-130); a Python
dict literal with a duplicated key keeps the binding written last, which the
fold over the entries below reproduces. -/

inductive MsgType where
  | tensorCommand
  | planCommand
  | workerCommand
  | objectMsg
  | objectRequest
  | forceObjectDelete
  | isNone
  | getShape
  | searchQuery
deriving DecidableEq, Fintype, Repr

inductive Handler where
  | executeTensorCommand
  | executePlanCommand
  | executeWorkerCommand
  | handleObjectMsg
  | respondToObjReq
  | handleDeleteObjectMsg
  | handleForceDeleteObjectMsg
  | isObjectNone
  | handleGetShapeMessage
  | respondToSearch
deriving DecidableEq, Fintype, Repr

/-- The entries of the `_message_router` dict literal, in source order
(lines 123-134).  There is no message type for the non-force delete
handler: the key of line 129 is `ForceObjectDeleteMessage` as well. -/
def messageRouterEntries : List (MsgType × Handler) :=
  [ (.tensorCommand, .executeTensorCommand),
    (.planCommand, .executePlanCommand),
    (.workerCommand, .executeWorkerCommand),
    (.objectMsg, .handleObjectMsg),
    (.objectRequest, .respondToObjReq),
    (.forceObjectDelete, .handleDeleteObjectMsg),
    (.forceObjectDelete, .handleForceDeleteObjectMsg),
    (.isNone, .isObjectNone),
    (.getShape, .handleGetShapeMessage),
    (.searchQuery, .respondToSearch) ]

/-- Dict insertion: a repeated key overwrites the earlier binding. -/
def dictInsert (d : List (MsgType × Handler)) (kv : MsgType × Handler) :
    List (MsgType × Handler) :=
  if d.any (fun p => p.1 = kv.1) then
    d.map (fun p => if p.1 = kv.1 then kv else p)
  else d ++ [kv]

def dictLookup : List (MsgType × Handler) → MsgType → Option Handler
  | [], _ => none
  | (k, v) :: rest, t => if k = t then some v else dictLookup rest t

/-- The built `_message_router`: the dict literal evaluated entry by
entry. -/
def messageRouter (t : MsgType) : Option Handler :=
  dictLookup (messageRouterEntries.foldl dictInsert []) t

/-- C10: every `ForceObjectDeleteMessage` received through the message
router is dispatched to `handle_force_delete_object_msg` (the force-delete
handler calling `force_rm_obj`), and `handle_delete_object_msg` (calling
`rm_obj`) is unreachable via the router: the dict literal maps the
`ForceObjectDeleteMessage` type twice and the second entry overwrites the
first. -/
theorem force_delete_routing :
    messageRouter .forceObjectDelete = some .handleForceDeleteObjectMsg
    ∧ ∀ t : MsgType, messageRouter t ≠ some .handleDeleteObjectMsg := by
  constructor
  · decide
  · decide

end PySyftWorker
